import Mathlib

/-!
Formal model of the GNAN content-fingerprinting engine (`apps/engine/gnan.py`).

The Python module is a stateless library around four feature extractors
(text, image, audio, code), a fingerprint builder, four pairwise similarity
scorers and a match engine.  External effects (the OpenAI embedding call, the
sentence-transformer, PIL/imagehash, librosa, the Python `ast` parser, the
current time) are modelled as an explicit environment of functions; the
cryptographic hashes (`hashlib.sha256` / `hashlib.md5`) are modelled as an
abstract `HashModel`.  Python floats are modelled exactly: rational arithmetic
where the source only adds, multiplies and divides rationals, and real
arithmetic (with `Real.sqrt`) for the cosine similarities.  Python `dict`s
with optional keys are modelled as a flat record of `Option` fields, `dict`
key-presence tests as `Option.isSome`, and `dict.get(k, d)` as `Option.getD`.
-/

set_option maxHeartbeats 1000000

namespace Gnan

/-- Abstract model of `hashlib`: `sha256hex s` stands for
`hashlib.sha256(s.encode()).hexdigest()` and `md5hex s` for
`hashlib.md5(s.encode()).hexdigest()`.  Theorems that need digest facts
(length 64, hex characters) take them as hypotheses. -/
structure HashModel where
  sha256hex : String → String
  md5hex : String → String

/-- What `PIL.Image.open` + `imagehash` + `open(path,'rb').read()` yield for a
readable image file: the four perceptual hash hex strings, pixel size, color
mode, the raw bytes (for the md5 content hash) and `os.path.getsize`. -/
structure ImageData where
  phash : String
  dhash : String
  ahash : String
  whash : String
  width : Nat
  height : Nat
  mode : String
  bytes : String
  fileSize : Nat

/-- What `librosa` + `open(path,'rb').read()` yield for a decodable audio
file: duration, sample rate, tempo, the two spectral summary means, the mean
MFCC vector and the file size. -/
structure AudioData where
  bytes : String
  duration : ℚ
  sampleRate : Nat
  tempo : ℚ
  centroidMean : ℚ
  rolloffMean : ℚ
  mfcc : List ℚ
  fileSize : Nat

/-- Abstraction of the Python `ast` node shapes `_fingerprint_code` observes:
node kind, the name (for `FunctionDef`/`ClassDef`), imported names, and child
statements.  `importStmt` models `ast.Import` (which has `.names` and **no**
`.module` attribute), `importFrom` models `ast.ImportFrom`. -/
inductive PyAst where
  | module (body : List PyAst)
  | functionDef (name : String) (body : List PyAst)
  | classDef (name : String) (body : List PyAst)
  | importStmt (names : List String)
  | importFrom (moduleName : Option String) (names : List String)
  | ifStmt (body : List PyAst)
  | whileStmt (body : List PyAst)
  | forStmt (body : List PyAst)
  | tryStmt (body : List PyAst)
  | other (body : List PyAst)

mutual

/-- `ast.walk`: the node itself and all descendants.  (`ast.walk` is
breadth-first; the source only ever uses the result through membership,
`set(...)` or counting, so a depth-first enumeration is an equivalent
model.) -/
def walk : PyAst → List PyAst
  | .module b => .module b :: walkList b
  | .functionDef n b => .functionDef n b :: walkList b
  | .classDef n b => .classDef n b :: walkList b
  | .importStmt ns => [.importStmt ns]
  | .importFrom m ns => [.importFrom m ns]
  | .ifStmt b => .ifStmt b :: walkList b
  | .whileStmt b => .whileStmt b :: walkList b
  | .forStmt b => .forStmt b :: walkList b
  | .tryStmt b => .tryStmt b :: walkList b
  | .other b => .other b :: walkList b

def walkList : List PyAst → List PyAst
  | [] => []
  | t :: ts => walk t ++ walkList ts

end

mutual

/-- Model of `ast.dump(tree, annotate_fields=False)`: a structural
serialization of the tree without field names. -/
def astDump : PyAst → String
  | .module b => "Module([" ++ astDumpList b ++ "])"
  | .functionDef n b => "FunctionDef(\x27" ++ n ++ "\x27, [" ++ astDumpList b ++ "])"
  | .classDef n b => "ClassDef(\x27" ++ n ++ "\x27, [" ++ astDumpList b ++ "])"
  | .importStmt ns => "Import([" ++ ", ".intercalate ns ++ "])"
  | .importFrom m ns => "ImportFrom(" ++ m.getD "None" ++ ", [" ++ ", ".intercalate ns ++ "])"
  | .ifStmt b => "If([" ++ astDumpList b ++ "])"
  | .whileStmt b => "While([" ++ astDumpList b ++ "])"
  | .forStmt b => "For([" ++ astDumpList b ++ "])"
  | .tryStmt b => "Try([" ++ astDumpList b ++ "])"
  | .other b => "Other([" ++ astDumpList b ++ "])"

def astDumpList : List PyAst → String
  | [] => ""
  | [t] => astDump t
  | t :: ts => astDump t ++ ", " ++ astDumpList ts

end

/-- `[node.name for node in ast.walk(tree) if isinstance(node, ast.FunctionDef)]` -/
def walkFunctions (t : PyAst) : List String :=
  (walk t).filterMap fun n =>
    match n with
    | .functionDef nm _ => some nm
    | _ => none

/-- `[node.name for node in ast.walk(tree) if isinstance(node, ast.ClassDef)]` -/
def walkClasses (t : PyAst) : List String :=
  (walk t).filterMap fun n =>
    match n with
    | .classDef nm _ => some nm
    | _ => none

/-- Whether the tree contains a plain `import` statement (`ast.Import`).
The source comprehension `[node.module for node in ast.walk(tree) if
isinstance(node, ast.Import)]` accesses `.module` on such a node, which does
not exist on `ast.Import`, so the first such node raises `AttributeError`. -/
def hasImportNode (t : PyAst) : Bool :=
  (walk t).any fun n =>
    match n with
    | .importStmt _ => true
    | _ => false

/-- `_calculate_complexity`: count of `If`/`While`/`For`/`Try` nodes. -/
def calculateComplexity (t : PyAst) : Nat :=
  ((walk t).filter fun n =>
    match n with
    | .ifStmt _ => true
    | .whileStmt _ => true
    | .forStmt _ => true
    | .tryStmt _ => true
    | _ => false).length

/-- The environment of effectful collaborators of the engine.  In the source,
`content` is always a string (the text itself, the code itself, or a file
path), so every environment function consumes a string.  `Except.error e`
models a raised exception with message `e`. -/
structure Env where
  now : String
  openaiEmbed : String → Except String (List ℚ)
  localEmbed : String → List ℚ
  openImage : String → Except String ImageData
  loadAudio : String → Except String AudioData
  parseCode : String → Except String PyAst

/-- The fingerprint record: the Python `dict` built by `generate_fingerprint`
merged with the kind-specific extractor bundle.  Every bundle key is an
`Option` field (absent key = `none`). -/
structure Fingerprint where
  fingerprint_id : String := ""
  content_type : String := ""
  timestamp : String := ""
  metadata : List (String × String) := []
  content_hash : Option String := none
  openai_embedding : Option (List ℚ) := none
  local_embedding : Option (List ℚ) := none
  word_count : Option Nat := none
  char_count : Option Nat := none
  ngram_signature : Option (List String) := none
  language : Option String := none
  perceptual_hashes : Option (List (String × String)) := none
  dimensions : Option (Nat × Nat) := none
  mode : Option String := none
  file_size : Option Nat := none
  duration : Option ℚ := none
  sample_rate : Option Nat := none
  tempo : Option ℚ := none
  spectral_centroid_mean : Option ℚ := none
  spectral_rolloff_mean : Option ℚ := none
  mfcc_features : Option (List ℚ) := none
  token_hash : Option String := none
  ast_hash : Option String := none
  line_count : Option Nat := none
  non_empty_lines : Option Nat := none
  functions : Option (List String) := none
  classes : Option (List String) := none
  imports : Option (List String) := none
  complexity_score : Option Nat := none
  error : Option String := none
  deriving DecidableEq

/-- Python `str.split()` with no argument: split on whitespace runs and drop
empty fields. -/
def pySplit (s : String) : List String :=
  (s.split fun c => c.isWhitespace).filter fun w => w ≠ ""

/-- `_extract_ngrams(text, n=3)`: 3-grams over lower-cased whitespace tokens,
in document order.  `List.range (words.length + 1 - 3)` equals Python's
`range(len(words)-3+1)` because a negative Python range is empty and
truncated `Nat` subtraction is zero there. -/
def extractNgrams (text : String) : List String :=
  let words := pySplit text.toLower
  (List.range (words.length + 1 - 3)).map fun i =>
    " ".intercalate ((words.drop i).take 3)

/-- `_generate_id`: `"fp_{kind}_" + sha256(f"{kind}:{content}").hexdigest()[:16]`.
The Python slice `[:16]` is the first 16 characters of the digest. -/
def mkFingerprintId (H : HashModel) (content contentType : String) : String :=
  "fp_" ++ contentType ++ "_" ++ String.mk ((H.sha256hex (contentType ++ ":" ++ content)).data.take 16)

/-- `_fingerprint_text`.  The `try` block's only failure source is the OpenAI
embedding call; on failure the source falls back to the local-embedding-only
bundle tagged with the error. -/
def fingerprintText (H : HashModel) (env : Env) (text : String) (base : Fingerprint) : Fingerprint :=
  match env.openaiEmbed text with
  | .ok emb =>
    { base with
      content_hash := some (H.md5hex text)
      openai_embedding := some emb
      local_embedding := some (env.localEmbed text)
      word_count := some (pySplit text).length
      char_count := some text.length
      ngram_signature := some ((extractNgrams text).take 100)
      language := some "en" }
  | .error e =>
    { base with
      content_hash := some (H.md5hex text)
      local_embedding := some (env.localEmbed text)
      word_count := some (pySplit text).length
      char_count := some text.length
      error := some e }

/-- `_fingerprint_image`: on any exception (unreadable file) the bundle is
only the error string; otherwise the four perceptual hashes keyed by
algorithm name, in the source's insertion order. -/
def fingerprintImage (H : HashModel) (env : Env) (path : String) (base : Fingerprint) : Fingerprint :=
  match env.openImage path with
  | .ok img =>
    { base with
      content_hash := some (H.md5hex img.bytes)
      perceptual_hashes := some
        [("phash", img.phash), ("dhash", img.dhash), ("ahash", img.ahash), ("whash", img.whash)]
      dimensions := some (img.width, img.height)
      mode := some img.mode
      file_size := some img.fileSize }
  | .error e =>
    { base with error := some ("Image fingerprinting failed: " ++ e) }

/-- `_fingerprint_audio`: on decode failure the bundle is only the error
string (the exception is caught, not propagated). -/
def fingerprintAudio (H : HashModel) (env : Env) (path : String) (base : Fingerprint) : Fingerprint :=
  match env.loadAudio path with
  | .ok au =>
    { base with
      content_hash := some (H.md5hex au.bytes)
      duration := some au.duration
      sample_rate := some au.sampleRate
      tempo := some au.tempo
      spectral_centroid_mean := some au.centroidMean
      spectral_rolloff_mean := some au.rolloffMean
      mfcc_features := some au.mfcc
      file_size := some au.fileSize }
  | .error e =>
    { base with error := some ("Audio fingerprinting failed: " ++ e) }

/-- The fallback bundle of `_fingerprint_code`'s `except` branch. -/
def codeFallback (H : HashModel) (code : String) (base : Fingerprint) (e : String) : Fingerprint :=
  { base with
    content_hash := some (H.md5hex code)
    line_count := some (code.splitOn "\n").length
    char_count := some code.length
    error := some ("AST parsing failed: " ++ e) }

/-- `code.replace(' ', '').replace('\n', '').replace('\t', '')` -/
def stripTokenChars (code : String) : String :=
  String.mk (code.data.filter fun c => c ≠ ' ' ∧ c ≠ '\n' ∧ c ≠ '\t')

/-- `_fingerprint_code`.  If parsing fails the fallback bundle is returned.
If parsing succeeds but the tree contains a plain `import` statement, the
comprehension `[node.module for node in ast.walk(tree) if isinstance(node,
ast.Import)]` raises `AttributeError` (an `ast.Import` node has no `.module`
attribute), which the same `except` turns into the fallback bundle; when no
such node exists the comprehension is empty, so `imports` is always `[]` in a
full bundle. -/
def fingerprintCode (H : HashModel) (env : Env) (code : String) (base : Fingerprint) : Fingerprint :=
  match env.parseCode code with
  | .error e => codeFallback H code base e
  | .ok tree =>
    if hasImportNode tree then
      codeFallback H code base "\x27Import\x27 object has no attribute \x27module\x27"
    else
      let lines := code.splitOn "\n"
      { base with
        content_hash := some (H.md5hex code)
        token_hash := some (H.md5hex (stripTokenChars code))
        ast_hash := some (H.md5hex (astDump tree))
        line_count := some lines.length
        non_empty_lines := some (lines.filter fun line => line.trim ≠ "").length
        functions := some (walkFunctions tree)
        classes := some (walkClasses tree)
        imports := some []
        complexity_score := some (calculateComplexity tree) }

/-- `generate_fingerprint`: builds the base record (id, kind, timestamp,
metadata), dispatches to the kind's extractor (whose bundle is merged by
`dict.update`, modelled as the extractor filling its fields of the record),
and raises `ValueError` for an unsupported kind. -/
def generate_fingerprint (H : HashModel) (env : Env) (content contentType : String)
    (metadata : List (String × String)) : Except String Fingerprint :=
  let base : Fingerprint :=
    { fingerprint_id := mkFingerprintId H content contentType
      content_type := contentType
      timestamp := env.now
      metadata := metadata }
  if contentType = "text" then .ok (fingerprintText H env content base)
  else if contentType = "image" then .ok (fingerprintImage H env content base)
  else if contentType = "audio" then .ok (fingerprintAudio H env content base)
  else if contentType = "code" then .ok (fingerprintCode H env content base)
  else .error ("Unsupported content type: " ++ contentType)

/-- Whether a builder call returned normally (did not raise). -/
def isOkB : Except String Fingerprint → Bool
  | .ok _ => true
  | .error _ => false

/-- `numpy.dot` on two equal-length float vectors (the scorers guard the
unequal-length `ValueError` case explicitly). -/
def dotQ : List ℚ → List ℚ → ℚ
  | x :: a, y :: b => x * y + dotQ a b
  | _, _ => 0

/-- `np.dot(a, b) / (np.linalg.norm(a) * np.linalg.norm(b))`, exactly:
`norm v = sqrt (v ⬝ v)`.  (Real division by zero is `0` in Lean; the Python
counterpart is `nan`, which compares false against every threshold — theorems
whose conclusion would differ under `nan` carry nonzero-norm hypotheses.) -/
noncomputable def cosineSim (a b : List ℚ) : ℝ :=
  ((dotQ a b : ℚ) : ℝ) /
    (Real.sqrt ((dotQ a a : ℚ) : ℝ) * Real.sqrt ((dotQ b b : ℚ) : ℝ))

/-- `_text_similarity`: OpenAI embeddings if both present, else local
embeddings if both present, else 0.  A `numpy` exception inside the `try`
(unequal vector lengths) is caught and falls through to `return 0.0`. -/
noncomputable def textSimilarity (fp1 fp2 : Fingerprint) : ℝ :=
  match fp1.openai_embedding, fp2.openai_embedding with
  | some e1, some e2 => if e1.length = e2.length then cosineSim e1 e2 else 0
  | _, _ =>
    match fp1.local_embedding, fp2.local_embedding with
    | some e1, some e2 => if e1.length = e2.length then cosineSim e1 e2 else 0
    | _, _ => 0

/-- Value of a hex character, as accepted by `int(c, 16)`. -/
def hexVal (c : Char) : Option Nat :=
  if c.isDigit then some (c.toNat - '0'.toNat)
  else if 'a' ≤ c ∧ c ≤ 'f' then some (c.toNat - 'a'.toNat + 10)
  else if 'A' ≤ c ∧ c ≤ 'F' then some (c.toNat - 'A'.toNat + 10)
  else none

/-- The four bits of a nibble, most significant first. -/
def nibbleBits (n : Nat) : List Bool :=
  [n.testBit 3, n.testBit 2, n.testBit 1, n.testBit 0]

/-- The bit array `imagehash.hex_to_hash` builds from a hex string:
`int(hexstr, 16)` zero-padded to `4*len(hexstr)` bits, i.e. the
concatenation of the nibbles. -/
def hexBits (s : String) : Option (List Bool) :=
  (s.data.mapM hexVal).map fun ds => (ds.map nibbleBits).flatten

/-- Whether `n` is a perfect square (an executable search, equivalent to the
`hash_size == sqrt(bits)` assertion in `imagehash.hex_to_hash`). -/
def isSquareBits (n : Nat) : Bool :=
  (List.range (n + 1)).any fun m => m * m == n

/-- Whether `imagehash.hex_to_hash` succeeds: all characters must be hex
digits (`int(hexstr, 16)`) and the bit count `4*len` must be a perfect
square (the `hash_size` assertion). -/
def validHashStr (s : String) : Bool :=
  (s.data.mapM hexVal).isSome && isSquareBits (4 * s.length)

/-- `hash1 - hash2`: the number of differing bits. -/
def hammingDist (h1 h2 : String) : Nat :=
  match hexBits h1, hexBits h2 with
  | some b1, some b2 => (List.zipWith (fun x y => x != y) b1 b2).count true
  | _, _ => 0

/-- One iteration of the `_image_similarity` loop for a hash type present in
both bundles: `max(0.0, 1.0 - (hash1 - hash2)/64.0)`.  `none` models the
exceptions `imagehash.hex_to_hash` or the hash subtraction can raise (invalid
hex, non-square bit count, mismatched shapes), which abort the whole scorer. -/
def imagePairSim (h1 h2 : String) : Option ℚ :=
  if validHashStr h1 && validHashStr h2 && (h1.length == h2.length) then
    some (max 0 (1 - (hammingDist h1 h2 : ℚ) / 64))
  else none

/-- The hash algorithms `_image_similarity` compares, in source order. -/
def hashTypes : List String := ["phash", "dhash", "ahash", "whash"]

/-- Sequence a list of optional results, failing on the first `none` (the
loop body's exception aborting the whole scorer). -/
def mapMO {α β : Type} (f : α → Option β) : List α → Option (List β)
  | [] => some []
  | x :: xs =>
    match f x, mapMO f xs with
    | some y, some ys => some (y :: ys)
    | _, _ => none

/-- The `(hash1, hash2)` pairs the `_image_similarity` loop compares: the
algorithms present in both bundles, in source order. -/
def imagePairs (fp1 fp2 : Fingerprint) : List (String × String) :=
  hashTypes.filterMap fun t =>
    match List.lookup t (fp1.perceptual_hashes.getD []),
        List.lookup t (fp2.perceptual_hashes.getD []) with
    | some a, some b => some (a, b)
    | _, _ => none

/-- `_image_similarity`: empty hash dicts score 0; any exception while
comparing a present pair makes the whole call return 0; otherwise the best
per-algorithm similarity (each already clamped to `≥ 0`), or 0 when no
algorithm is present in both. -/
def imageSimilarity (fp1 fp2 : Fingerprint) : ℚ :=
  if fp1.perceptual_hashes.getD [] = [] ∨ fp2.perceptual_hashes.getD [] = [] then 0
  else
    match mapMO (fun p => imagePairSim p.1 p.2) (imagePairs fp1 fp2) with
    | none => 0
    | some sims => sims.foldl max 0

/-- `_audio_similarity`: cosine similarity of the mean MFCC vectors; 0 when
either is absent or empty, and 0 via the caught `numpy` exception when the
lengths differ. -/
noncomputable def audioSimilarity (fp1 fp2 : Fingerprint) : ℝ :=
  if fp1.mfcc_features.getD [] = [] ∨ fp2.mfcc_features.getD [] = [] then 0
  else if (fp1.mfcc_features.getD []).length = (fp2.mfcc_features.getD []).length then
    cosineSim (fp1.mfcc_features.getD []) (fp2.mfcc_features.getD [])
  else 0

/-- `_code_similarity`: 0.4·[ast hashes equal] + 0.3·[token hashes equal] +
0.3·Jaccard of the `functions` name sets (`classes` is never read), with the
union size clamped to at least 1.  The `.get` of an absent key yields `None`,
so two bundles both missing a hash field compare equal on it. -/
def codeSimilarity (fp1 fp2 : Fingerprint) : ℚ :=
  0.4 * (if fp1.ast_hash = fp2.ast_hash then 1 else 0) +
  0.3 * (if fp1.token_hash = fp2.token_hash then 1 else 0) +
  0.3 * ((((fp1.functions.getD []).toFinset ∩ (fp2.functions.getD []).toFinset).card : ℚ) /
    ((max ((fp1.functions.getD []).toFinset ∪ (fp2.functions.getD []).toFinset).card 1 : ℕ) : ℚ))

/-- The code-similarity formula as the spec's words state it, for comparison
with the source's `_code_similarity`: the Jaccard term is taken over the
"extracted function/class name sets", i.e. the union of the function and
class name sets, where the source reads only `functions`. -/
def specCodeSimilarity (fp1 fp2 : Fingerprint) : ℚ :=
  0.4 * (if fp1.ast_hash = fp2.ast_hash then 1 else 0) +
  0.3 * (if fp1.token_hash = fp2.token_hash then 1 else 0) +
  0.3 * (((((fp1.functions.getD []) ++ (fp1.classes.getD [])).toFinset ∩
      ((fp2.functions.getD []) ++ (fp2.classes.getD [])).toFinset).card : ℚ) /
    ((max (((fp1.functions.getD []) ++ (fp1.classes.getD [])).toFinset ∪
      ((fp2.functions.getD []) ++ (fp2.classes.getD [])).toFinset).card 1 : ℕ) : ℚ))

/-- `_calculate_similarity`: dispatch on the **first** bundle's kind; an
unrecognized kind scores 0. -/
noncomputable def calculateSimilarity (fp1 fp2 : Fingerprint) : ℝ :=
  if fp1.content_type = "text" then textSimilarity fp1 fp2
  else if fp1.content_type = "image" then ((imageSimilarity fp1 fp2 : ℚ) : ℝ)
  else if fp1.content_type = "audio" then audioSimilarity fp1 fp2
  else if fp1.content_type = "code" then ((codeSimilarity fp1 fp2 : ℚ) : ℝ)
  else 0

/-- The descending-by-score relation `list.sort(key=lambda x: x[1],
reverse=True)` sorts by. -/
def scoreGE (a b : Fingerprint × ℝ) : Prop := b.2 ≤ a.2

noncomputable instance : DecidableRel scoreGE :=
  fun a b => inferInstanceAs (Decidable (b.2 ≤ a.2))

instance : IsTotal (Fingerprint × ℝ) scoreGE := ⟨fun a b => le_total b.2 a.2⟩

instance : IsTrans (Fingerprint × ℝ) scoreGE := ⟨fun _ _ _ h1 h2 => le_trans h2 h1⟩

/-- The `matches` list `find_similar_content` accumulates before sorting:
same-kind candidates in pool order, paired with their scores, kept when the
score is at least the threshold (inclusive). -/
noncomputable def keptMatches (fp : Fingerprint) (database : List Fingerprint)
    (threshold : ℝ) : List (Fingerprint × ℝ) :=
  ((database.filter fun d => d.content_type == fp.content_type).map
    fun d => (d, calculateSimilarity fp d)).filter fun x => decide (threshold ≤ x.2)

/-- `find_similar_content`: keep same-kind candidates scoring at least the
threshold, in pool order, then sort descending by score.  Python's `sort` is
stable; a stable sort under a total preorder is extensionally unique, so
insertion sort on `scoreGE` models it exactly. -/
noncomputable def find_similar_content (fp : Fingerprint) (database : List Fingerprint)
    (threshold : ℝ) : List (Fingerprint × ℝ) :=
  List.insertionSort scoreGE (keptMatches fp database threshold)

/-- Candidate-side features each kind's scorer reads; a bundle "missing its
kind's required features" (absent embeddings / empty hash dict / empty MFCC
vector / absent hashes and empty symbol set) scores 0 against any
well-featured query. -/
def missingKindFeatures (fp : Fingerprint) : Prop :=
  if fp.content_type = "text" then fp.openai_embedding = none ∧ fp.local_embedding = none
  else if fp.content_type = "image" then fp.perceptual_hashes.getD [] = []
  else if fp.content_type = "audio" then fp.mfcc_features.getD [] = []
  else if fp.content_type = "code" then
    fp.ast_hash = none ∧ fp.token_hash = none ∧ fp.functions.getD [] = []
  else True

/-- The query-side sanity the code scorer needs so that a featureless
candidate cannot spuriously match its absent hashes (`None == None`). -/
def queryKindFeatures (fp : Fingerprint) : Prop :=
  fp.content_type = "code" → fp.ast_hash.isSome = true ∧ fp.token_hash.isSome = true

/-- Every embedding/MFCC vector stored in the bundle has nonzero self-dot:
exactly the bundles whose cosine similarities avoid the float `nan` that a
zero norm produces in the source (where the exact model diverges from IEEE
arithmetic). -/
def vecsOK (fp : Fingerprint) : Prop :=
  (∀ v ∈ fp.openai_embedding, dotQ v v ≠ 0) ∧
  (∀ v ∈ fp.local_embedding, dotQ v v ≠ 0) ∧
  (∀ v ∈ fp.mfcc_features, dotQ v v ≠ 0)

/-- A character `int(_, 16)` accepts. -/
def isHexChar (c : Char) : Bool := (hexVal c).isSome

/-! Concrete instances used by the witnesses and counterexamples below. -/

/-- A concrete hash model: a constant 64-hex-character sha256 digest (the
digest-shape hypotheses of the theorems do not require injectivity) and a
tagging md5. -/
def H0 : HashModel :=
  ⟨fun _ => "0123456789abcdef0123456789abcdef0123456789abcdef0123456789abcdef",
   fun s => "md5:" ++ s⟩

/-- An environment in which every external collaborator fails. -/
def envErr : Env :=
  ⟨"t0", fun _ => .error "api down", fun _ => [1, 2], fun _ => .error "unreadable",
   fun _ => .error "decode failure", fun _ => .error "invalid syntax"⟩

def envText : Env := { envErr with openaiEmbed := fun _ => .ok [1, 2] }

def envParse : Env :=
  { envErr with parseCode := fun _ => .ok (PyAst.module [PyAst.functionDef "f" []]) }

def envImport : Env :=
  { envErr with parseCode := fun _ => .ok (PyAst.module [PyAst.importStmt ["os"]]) }

def envAudio : Env :=
  { envErr with loadAudio := fun _ => .ok ⟨"wavbytes", 10, 22050, 120, 1000, 2000, [1, 2, 3], 4⟩ }

/-- Project a successful builder result (defaults otherwise). -/
def okFP : Except String Fingerprint → Fingerprint
  | .ok fp => fp
  | .error _ => {}

def fpCodeBad : Fingerprint := okFP (generate_fingerprint H0 envErr "if x:" "code" [])

def fpTextA : Fingerprint := okFP (generate_fingerprint H0 envErr "hello" "text" [])

def fpTextOk : Fingerprint := okFP (generate_fingerprint H0 envText "hello" "text" [])

/-- A second build of the same text at a different time with different
metadata. -/
def fpTextA2 : Fingerprint :=
  okFP (generate_fingerprint H0 { envErr with now := "t1" } "hello" "text" [("a", "b")])

def fpImageA : Fingerprint := okFP (generate_fingerprint H0 envErr "pic.png" "image" [])

/-- Two same-kind text bundles whose embeddings point in opposite
directions. -/
def ctxA : Fingerprint := { content_type := "text", openai_embedding := some [1] }

def ctxB : Fingerprint := { content_type := "text", openai_embedding := some [-1] }

/-- Self-similarity witnesses, one per kind. -/
def cSelfText : Fingerprint := { content_type := "text", openai_embedding := some [2, 1] }

def cSelfLocal : Fingerprint := { content_type := "text", local_embedding := some [3] }

def cSelfImage : Fingerprint :=
  { content_type := "image"
    perceptual_hashes := some [("phash", "ff00ff00ff00ff00"), ("dhash", "0f0f0f0f0f0f0f0f")] }

def cSelfAudio : Fingerprint := { content_type := "audio", mfcc_features := some [1, 2] }

def cSelfCode : Fingerprint :=
  { content_type := "code", ast_hash := some "a1", token_hash := some "b1"
    functions := some ["f"] }

/-- A code bundle with an empty function set: its self-similarity is 0.7. -/
def cSelfCodeEmpty : Fingerprint :=
  { content_type := "code", ast_hash := some "a1", token_hash := some "b1"
    functions := some [] }

/-- Code bundles with equal hashes and function sets but disjoint class
sets. -/
def csA : Fingerprint :=
  { content_type := "code", ast_hash := some "h1", token_hash := some "h2"
    functions := some ["f"], classes := some ["A"] }

def csB : Fingerprint :=
  { content_type := "code", ast_hash := some "h1", token_hash := some "h2"
    functions := some ["f"], classes := some ["B"] }

/-- A well-featured code query and a featureless code candidate. -/
def cq4 : Fingerprint :=
  { content_type := "code", ast_hash := some "qa", token_hash := some "qt"
    functions := some ["g"] }

def cc4 : Fingerprint := { content_type := "code" }

/-- A code query/candidate pair for the threshold-extremes witness. -/
def cq7 : Fingerprint :=
  { content_type := "code", ast_hash := some "x1", token_hash := some "y1"
    functions := some ["h"] }

def cc7 : Fingerprint :=
  { content_type := "code", ast_hash := some "x1", token_hash := some "z1"
    functions := some [] }

/-! General lemmas about the model. -/

theorem dotQ_self_nonneg (a : List ℚ) : 0 ≤ dotQ a a := by
  induction a with
  | nil => simp [dotQ]
  | cons x a ih =>
    simp only [dotQ]
    nlinarith [mul_self_nonneg x]

/-- Cauchy–Schwarz for `dotQ`. -/
theorem dotQ_sq_le (a : List ℚ) : ∀ b, dotQ a b ^ 2 ≤ dotQ a a * dotQ b b := by
  induction a with
  | nil => intro b; simp [dotQ]
  | cons x a ih =>
    intro b
    cases b with
    | nil =>
      simp only [dotQ]
      nlinarith [dotQ_self_nonneg (x :: a)]
    | cons y b =>
      have hA := dotQ_self_nonneg a
      have hB := dotQ_self_nonneg b
      have h := ih b
      simp only [dotQ]
      rcases eq_or_lt_of_le hB with hB0 | hBpos
      · have hd : dotQ a b = 0 := by
          have h2 : dotQ a b ^ 2 ≤ 0 := by nlinarith
          nlinarith [sq_nonneg (dotQ a b)]
        rw [hd, ← hB0]
        nlinarith [mul_nonneg hA (sq_nonneg y)]
      · nlinarith [sq_nonneg (x * dotQ b b - y * dotQ a b),
          mul_nonneg (sub_nonneg.mpr h) (sq_nonneg y),
          mul_nonneg (sub_nonneg.mpr h) hB, hBpos]

theorem cosineSim_le_one (a b : List ℚ) : cosineSim a b ≤ 1 := by
  unfold cosineSim
  have hA : (0 : ℝ) ≤ ((dotQ a a : ℚ) : ℝ) := by exact_mod_cast dotQ_self_nonneg a
  have hB : (0 : ℝ) ≤ ((dotQ b b : ℚ) : ℝ) := by exact_mod_cast dotQ_self_nonneg b
  have hD : ((dotQ a b : ℚ) : ℝ) ^ 2 ≤ ((dotQ a a : ℚ) : ℝ) * ((dotQ b b : ℚ) : ℝ) := by
    exact_mod_cast dotQ_sq_le a b
  rcases eq_or_lt_of_le
      (mul_nonneg (Real.sqrt_nonneg ((dotQ a a : ℚ) : ℝ)) (Real.sqrt_nonneg ((dotQ b b : ℚ) : ℝ)))
    with h0 | hpos
  · rw [← h0, div_zero]; norm_num
  · rw [div_le_one hpos]
    calc ((dotQ a b : ℚ) : ℝ) ≤ |((dotQ a b : ℚ) : ℝ)| := le_abs_self _
    _ = Real.sqrt (((dotQ a b : ℚ) : ℝ) ^ 2) := (Real.sqrt_sq_eq_abs _).symm
    _ ≤ Real.sqrt (((dotQ a a : ℚ) : ℝ) * ((dotQ b b : ℚ) : ℝ)) := Real.sqrt_le_sqrt hD
    _ = Real.sqrt ((dotQ a a : ℚ) : ℝ) * Real.sqrt ((dotQ b b : ℚ) : ℝ) := Real.sqrt_mul hA _

theorem neg_one_le_cosineSim (a b : List ℚ) : -1 ≤ cosineSim a b := by
  unfold cosineSim
  have hA : (0 : ℝ) ≤ ((dotQ a a : ℚ) : ℝ) := by exact_mod_cast dotQ_self_nonneg a
  have hB : (0 : ℝ) ≤ ((dotQ b b : ℚ) : ℝ) := by exact_mod_cast dotQ_self_nonneg b
  have hD : ((dotQ a b : ℚ) : ℝ) ^ 2 ≤ ((dotQ a a : ℚ) : ℝ) * ((dotQ b b : ℚ) : ℝ) := by
    exact_mod_cast dotQ_sq_le a b
  rcases eq_or_lt_of_le
      (mul_nonneg (Real.sqrt_nonneg ((dotQ a a : ℚ) : ℝ)) (Real.sqrt_nonneg ((dotQ b b : ℚ) : ℝ)))
    with h0 | hpos
  · rw [← h0, div_zero]; norm_num
  · rw [le_div_iff₀ hpos]
    have habs : |((dotQ a b : ℚ) : ℝ)| ≤
        Real.sqrt ((dotQ a a : ℚ) : ℝ) * Real.sqrt ((dotQ b b : ℚ) : ℝ) := by
      calc |((dotQ a b : ℚ) : ℝ)| = Real.sqrt (((dotQ a b : ℚ) : ℝ) ^ 2) :=
        (Real.sqrt_sq_eq_abs _).symm
      _ ≤ Real.sqrt (((dotQ a a : ℚ) : ℝ) * ((dotQ b b : ℚ) : ℝ)) := Real.sqrt_le_sqrt hD
      _ = Real.sqrt ((dotQ a a : ℚ) : ℝ) * Real.sqrt ((dotQ b b : ℚ) : ℝ) := Real.sqrt_mul hA _
    nlinarith [neg_abs_le ((dotQ a b : ℚ) : ℝ)]

theorem cosineSim_self (v : List ℚ) (h : dotQ v v ≠ 0) : cosineSim v v = 1 := by
  unfold cosineSim
  have hA : (0 : ℝ) ≤ ((dotQ v v : ℚ) : ℝ) := by exact_mod_cast dotQ_self_nonneg v
  rw [Real.mul_self_sqrt hA]
  exact div_self (by exact_mod_cast h)

theorem textSimilarity_bounds (fp1 fp2 : Fingerprint) :
    -1 ≤ textSimilarity fp1 fp2 ∧ textSimilarity fp1 fp2 ≤ 1 := by
  unfold textSimilarity
  rcases fp1.openai_embedding with _ | e1 <;> rcases fp2.openai_embedding with _ | e2 <;>
    try rcases fp1.local_embedding with _ | f1 <;> rcases fp2.local_embedding with _ | f2
  all_goals dsimp only
  all_goals try split
  all_goals first
  | exact ⟨neg_one_le_cosineSim _ _, cosineSim_le_one _ _⟩
  | norm_num

theorem audioSimilarity_bounds (fp1 fp2 : Fingerprint) :
    -1 ≤ audioSimilarity fp1 fp2 ∧ audioSimilarity fp1 fp2 ≤ 1 := by
  unfold audioSimilarity
  split
  · norm_num
  · split
    · exact ⟨neg_one_le_cosineSim _ _, cosineSim_le_one _ _⟩
    · norm_num

theorem foldl_max_nonneg (l : List ℚ) : ∀ a : ℚ, 0 ≤ a → 0 ≤ l.foldl max a := by
  induction l with
  | nil => intro a ha; simpa using ha
  | cons x l ih =>
    intro a ha
    simp only [List.foldl_cons]
    exact ih _ (le_trans ha (le_max_left a x))

theorem foldl_max_le_one (l : List ℚ) (h : ∀ x ∈ l, x ≤ 1) :
    ∀ a : ℚ, a ≤ 1 → l.foldl max a ≤ 1 := by
  induction l with
  | nil => intro a ha; simpa using ha
  | cons x l ih =>
    intro a ha
    simp only [List.foldl_cons]
    exact ih (fun y hy => h y (List.mem_cons_of_mem _ hy)) _
      (max_le ha (h x (List.mem_cons_self _ _)))

theorem imagePairSim_mem (h1 h2 : String) (q : ℚ) (h : imagePairSim h1 h2 = some q) :
    0 ≤ q ∧ q ≤ 1 := by
  unfold imagePairSim at h
  split at h
  · cases h
    constructor
    · exact le_max_left 0 _
    · have hd : (0 : ℚ) ≤ (hammingDist h1 h2 : ℚ) := by positivity
      have : (1 : ℚ) - (hammingDist h1 h2 : ℚ) / 64 ≤ 1 := by
        have : (0 : ℚ) ≤ (hammingDist h1 h2 : ℚ) / 64 := by positivity
        linarith
      exact max_le (by norm_num) this
  · cases h

/-- Elements of a successful `mapMO` run come from applying `f`. -/
theorem mapMO_mem {α β : Type} (f : α → Option β) :
    ∀ (l : List α) (res : List β), mapMO f l = some res →
      ∀ y ∈ res, ∃ x ∈ l, f x = some y := by
  intro l
  induction l with
  | nil =>
    intro res h y hy
    simp only [mapMO] at h
    cases h
    simp at hy
  | cons x xs ih =>
    intro res h y hy
    simp only [mapMO] at h
    rcases hfx : f x with _ | z <;> rw [hfx] at h
    · cases h
    · rcases hrest : mapMO f xs with _ | zs <;> rw [hrest] at h
      · cases h
      · cases h
        rcases List.mem_cons.mp hy with rfl | hy2
        · exact ⟨x, List.mem_cons_self _ _, hfx⟩
        · obtain ⟨w, hw, hfw⟩ := ih zs hrest y hy2
          exact ⟨w, List.mem_cons_of_mem _ hw, hfw⟩

theorem imageSimilarity_bounds (fp1 fp2 : Fingerprint) :
    0 ≤ imageSimilarity fp1 fp2 ∧ imageSimilarity fp1 fp2 ≤ 1 := by
  unfold imageSimilarity
  split
  · norm_num
  · split
    · norm_num
    · rename_i sims hsims
      constructor
      · exact foldl_max_nonneg _ _ le_rfl
      · refine foldl_max_le_one _ ?_ _ (by norm_num)
        intro x hx
        obtain ⟨p, _, hp⟩ := mapMO_mem _ _ _ hsims x hx
        exact (imagePairSim_mem _ _ _ hp).2

theorem codeSimilarity_bounds (fp1 fp2 : Fingerprint) :
    0 ≤ codeSimilarity fp1 fp2 ∧ codeSimilarity fp1 fp2 ≤ 1 := by
  unfold codeSimilarity
  have hm : (0 : ℚ) <
      ((max ((fp1.functions.getD []).toFinset ∪ (fp2.functions.getD []).toFinset).card 1 : ℕ) : ℚ) := by
    have : (1 : ℕ) ≤ max ((fp1.functions.getD []).toFinset ∪ (fp2.functions.getD []).toFinset).card 1 :=
      le_max_right _ _
    exact_mod_cast Nat.lt_of_lt_of_le Nat.zero_lt_one this
  have hcard : (((fp1.functions.getD []).toFinset ∩ (fp2.functions.getD []).toFinset).card : ℚ) ≤
      ((max ((fp1.functions.getD []).toFinset ∪ (fp2.functions.getD []).toFinset).card 1 : ℕ) : ℚ) := by
    have h1 : ((fp1.functions.getD []).toFinset ∩ (fp2.functions.getD []).toFinset).card ≤
        ((fp1.functions.getD []).toFinset ∪ (fp2.functions.getD []).toFinset).card :=
      Finset.card_le_card (Finset.inter_subset_union)
    have h2 : ((fp1.functions.getD []).toFinset ∪ (fp2.functions.getD []).toFinset).card ≤
        max ((fp1.functions.getD []).toFinset ∪ (fp2.functions.getD []).toFinset).card 1 :=
      le_max_left _ _
    exact_mod_cast le_trans h1 h2
  have hjac0 : (0 : ℚ) ≤
      (((fp1.functions.getD []).toFinset ∩ (fp2.functions.getD []).toFinset).card : ℚ) /
        ((max ((fp1.functions.getD []).toFinset ∪ (fp2.functions.getD []).toFinset).card 1 : ℕ) : ℚ) := by
    positivity
  have hjac1 : (((fp1.functions.getD []).toFinset ∩ (fp2.functions.getD []).toFinset).card : ℚ) /
      ((max ((fp1.functions.getD []).toFinset ∪ (fp2.functions.getD []).toFinset).card 1 : ℕ) : ℚ) ≤ 1 :=
    (div_le_one hm).mpr hcard
  constructor
  · split <;> split <;> nlinarith
  · split <;> split <;> nlinarith

theorem calculateSimilarity_le_one (fp1 fp2 : Fingerprint) :
    calculateSimilarity fp1 fp2 ≤ 1 := by
  unfold calculateSimilarity
  split
  · exact (textSimilarity_bounds fp1 fp2).2
  · split
    · exact_mod_cast (imageSimilarity_bounds fp1 fp2).2
    · split
      · exact (audioSimilarity_bounds fp1 fp2).2
      · split
        · exact_mod_cast (codeSimilarity_bounds fp1 fp2).2
        · norm_num

theorem neg_one_le_calculateSimilarity (fp1 fp2 : Fingerprint) :
    -1 ≤ calculateSimilarity fp1 fp2 := by
  unfold calculateSimilarity
  split
  · exact (textSimilarity_bounds fp1 fp2).1
  · split
    · have := (imageSimilarity_bounds fp1 fp2).1
      have h2 : (0 : ℝ) ≤ ((imageSimilarity fp1 fp2 : ℚ) : ℝ) := by exact_mod_cast this
      linarith
    · split
      · exact (audioSimilarity_bounds fp1 fp2).1
      · split
        · have := (codeSimilarity_bounds fp1 fp2).1
          have h2 : (0 : ℝ) ≤ ((codeSimilarity fp1 fp2 : ℚ) : ℝ) := by exact_mod_cast this
          linarith
        · norm_num

/-- Inserting below strictly greater scores commutes with filtering by an
exact score value: the key stability fact about `orderedInsert` on
`scoreGE`. -/
theorem filter_score_orderedInsert (s : ℝ) (a : Fingerprint × ℝ)
    (l : List (Fingerprint × ℝ)) :
    (List.orderedInsert scoreGE a l).filter (fun x => decide (x.2 = s)) =
      (a :: l).filter (fun x => decide (x.2 = s)) := by
  induction l with
  | nil => rfl
  | cons b l ih =>
    by_cases hab : scoreGE a b
    · rw [List.orderedInsert, if_pos hab]
    · rw [List.orderedInsert, if_neg hab]
      have hlt : a.2 < b.2 := by
        unfold scoreGE at hab
        exact not_le.mp hab
      by_cases ha : a.2 = s <;> by_cases hb : b.2 = s
      · exact absurd (ha.trans hb.symm) (ne_of_lt hlt)
      all_goals simp [List.filter_cons, ha, hb, ih]

/-- Sorting by descending score commutes with filtering by an exact score
value: the stable-sort property of the match list. -/
theorem filter_score_insertionSort (s : ℝ) (l : List (Fingerprint × ℝ)) :
    (List.insertionSort scoreGE l).filter (fun x => decide (x.2 = s)) =
      l.filter (fun x => decide (x.2 = s)) := by
  induction l with
  | nil => rfl
  | cons a l ih =>
    rw [List.insertionSort, filter_score_orderedInsert]
    by_cases ha : a.2 = s <;> simp [List.filter_cons, ha, ih]

theorem mem_keptMatches (q : Fingerprint) (pool : List Fingerprint) (t : ℝ)
    (c : Fingerprint) (s : ℝ) :
    (c, s) ∈ keptMatches q pool t ↔
      c ∈ pool ∧ c.content_type = q.content_type ∧ s = calculateSimilarity q c ∧ t ≤ s := by
  unfold keptMatches
  simp only [List.mem_filter, List.mem_map, List.mem_filter, decide_eq_true_eq, beq_iff_eq]
  constructor
  · rintro ⟨⟨d, ⟨hd, hdk⟩, heq⟩, hts⟩
    cases heq
    exact ⟨hd, hdk, rfl, hts⟩
  · rintro ⟨hc, hk, rfl, hts⟩
    exact ⟨⟨c, ⟨hc, hk⟩, rfl⟩, hts⟩

theorem mem_find_similar (q : Fingerprint) (pool : List Fingerprint) (t : ℝ)
    (c : Fingerprint) (s : ℝ) :
    (c, s) ∈ find_similar_content q pool t ↔
      c ∈ pool ∧ c.content_type = q.content_type ∧ s = calculateSimilarity q c ∧ t ≤ s := by
  rw [← mem_keptMatches q pool t c s]
  unfold find_similar_content
  exact (List.perm_insertionSort scoreGE _).mem_iff

/-- Structural facts about every fingerprint the builder returns: its kind
and id fields, and which bundle fields each kind can populate. -/
theorem build_ok_fields (H : HashModel) (env : Env) (c k : String)
    (m : List (String × String)) (fp : Fingerprint)
    (h : generate_fingerprint H env c k m = .ok fp) :
    fp.content_type = k ∧ fp.fingerprint_id = mkFingerprintId H c k ∧
    (k = "text" ∨ k = "image" ∨ k = "audio" ∨ k = "code") ∧
    (k ≠ "text" → fp.openai_embedding = none ∧ fp.local_embedding = none) ∧
    (k ≠ "image" → fp.perceptual_hashes = none) ∧
    (k ≠ "audio" → fp.mfcc_features = none) ∧
    (k ≠ "code" → fp.ast_hash = none ∧ fp.token_hash = none ∧ fp.functions = none) ∧
    (k = "code" →
      (fp.ast_hash = none ∧ fp.token_hash = none ∧ fp.functions = none) ∨
      (fp.ast_hash.isSome = true ∧ fp.token_hash.isSome = true ∧ fp.functions.isSome = true)) := by
  unfold generate_fingerprint at h
  by_cases h1 : k = "text"
  · subst h1
    rw [if_pos rfl] at h
    injection h with h
    subst h
    unfold fingerprintText
    cases env.openaiEmbed c <;> simp [mkFingerprintId]
  · by_cases h2 : k = "image"
    · subst h2
      rw [if_neg h1, if_pos rfl] at h
      injection h with h
      subst h
      unfold fingerprintImage
      cases env.openImage c <;> simp [h1, mkFingerprintId]
    · by_cases h3 : k = "audio"
      · subst h3
        rw [if_neg h1, if_neg h2, if_pos rfl] at h
        injection h with h
        subst h
        unfold fingerprintAudio
        cases env.loadAudio c <;> simp [h1, h2, mkFingerprintId]
      · by_cases h4 : k = "code"
        · subst h4
          rw [if_neg h1, if_neg h2, if_neg h3, if_pos rfl] at h
          injection h with h
          subst h
          unfold fingerprintCode codeFallback
          cases env.parseCode c with
          | error e => simp [h1, h2, h3, mkFingerprintId]
          | ok tree =>
            by_cases hi : hasImportNode tree = true
            · simp [hi, h1, h2, h3, mkFingerprintId]
            · simp [hi, h1, h2, h3, mkFingerprintId]
        · rw [if_neg h1, if_neg h2, if_neg h3, if_neg h4] at h
          exact absurd h (by simp)

/-- Repeated builder calls on the same content and kind — at a different
time and with different metadata — agree on the id and the content hash. -/
theorem build_hash_invariant (H : HashModel) (env : Env) (t c k : String)
    (m m2 : List (String × String)) (fp fp2 : Fingerprint)
    (h1 : generate_fingerprint H env c k m = .ok fp)
    (h2 : generate_fingerprint H { env with now := t } c k m2 = .ok fp2) :
    fp.fingerprint_id = fp2.fingerprint_id ∧ fp.content_hash = fp2.content_hash := by
  unfold generate_fingerprint at h1 h2
  by_cases hk1 : k = "text"
  · subst hk1
    rw [if_pos rfl] at h1 h2
    injection h1 with h1
    injection h2 with h2
    subst h1; subst h2
    unfold fingerprintText
    cases henv : env.openaiEmbed c <;> simp [henv]
  · by_cases hk2 : k = "image"
    · subst hk2
      rw [if_neg hk1, if_pos rfl] at h1 h2
      injection h1 with h1
      injection h2 with h2
      subst h1; subst h2
      unfold fingerprintImage
      cases henv : env.openImage c <;> simp [henv]
    · by_cases hk3 : k = "audio"
      · subst hk3
        rw [if_neg hk1, if_neg hk2, if_pos rfl] at h1 h2
        injection h1 with h1
        injection h2 with h2
        subst h1; subst h2
        unfold fingerprintAudio
        cases henv : env.loadAudio c <;> simp [henv]
      · by_cases hk4 : k = "code"
        · subst hk4
          rw [if_neg hk1, if_neg hk2, if_neg hk3, if_pos rfl] at h1 h2
          injection h1 with h1
          injection h2 with h2
          subst h1; subst h2
          unfold fingerprintCode codeFallback
          cases henv : env.parseCode c with
          | error e => simp [henv]
          | ok tree =>
            by_cases hi : hasImportNode tree = true <;> simp [henv, hi]
        · rw [if_neg hk1, if_neg hk2, if_neg hk3, if_neg hk4] at h1
          exact absurd h1 (by simp)

theorem mkId_ne_of_char (H : HashModel) (c1 c2 k1 k2 : String) (a b : Char)
    (h1 : (mkFingerprintId H c1 k1).data.get? 3 = some a)
    (h2 : (mkFingerprintId H c2 k2).data.get? 3 = some b)
    (hab : a ≠ b) : mkFingerprintId H c1 k1 ≠ mkFingerprintId H c2 k2 := by
  intro heq
  rw [heq, h2] at h1
  exact hab (Option.some.inj h1).symm

/-- Ids of the four supported kinds can never collide across kinds: the
character at index 3 is the kind tag's first letter, and `t`, `i`, `a`, `c`
are pairwise distinct. -/
theorem mkFingerprintId_ne (H : HashModel) (c1 c2 k1 k2 : String)
    (hk1 : k1 = "text" ∨ k1 = "image" ∨ k1 = "audio" ∨ k1 = "code")
    (hk2 : k2 = "text" ∨ k2 = "image" ∨ k2 = "audio" ∨ k2 = "code")
    (hne : k1 ≠ k2) :
    mkFingerprintId H c1 k1 ≠ mkFingerprintId H c2 k2 := by
  rcases hk1 with rfl | rfl | rfl | rfl <;> rcases hk2 with rfl | rfl | rfl | rfl
  · exact absurd rfl hne
  · exact mkId_ne_of_char H c1 c2 _ _ 't' 'i' rfl rfl (by decide)
  · exact mkId_ne_of_char H c1 c2 _ _ 't' 'a' rfl rfl (by decide)
  · exact mkId_ne_of_char H c1 c2 _ _ 't' 'c' rfl rfl (by decide)
  · exact mkId_ne_of_char H c1 c2 _ _ 'i' 't' rfl rfl (by decide)
  · exact absurd rfl hne
  · exact mkId_ne_of_char H c1 c2 _ _ 'i' 'a' rfl rfl (by decide)
  · exact mkId_ne_of_char H c1 c2 _ _ 'i' 'c' rfl rfl (by decide)
  · exact mkId_ne_of_char H c1 c2 _ _ 'a' 't' rfl rfl (by decide)
  · exact mkId_ne_of_char H c1 c2 _ _ 'a' 'i' rfl rfl (by decide)
  · exact absurd rfl hne
  · exact mkId_ne_of_char H c1 c2 _ _ 'a' 'c' rfl rfl (by decide)
  · exact mkId_ne_of_char H c1 c2 _ _ 'c' 't' rfl rfl (by decide)
  · exact mkId_ne_of_char H c1 c2 _ _ 'c' 'i' rfl rfl (by decide)
  · exact mkId_ne_of_char H c1 c2 _ _ 'c' 'a' rfl rfl (by decide)
  · exact absurd rfl hne

/-- C1: for every content and every supported kind, repeated builder calls
(here: at a different time and with different metadata) produce identical
fingerprint ids and identical content hashes; the id is the kind tag
`fp_<kind>_` followed by the first 16 characters of the sha256 digest of
`"<kind>:<content>"` — a fixed-length prefix of 16 hex characters under the
digest-shape hypotheses — and ids built for two different supported kinds
are never equal. -/
theorem C1_id_deterministic_and_kind_separated
    (H : HashModel) (env env3 : Env) (t c k c2 k2 : String)
    (m m2 m3 : List (String × String)) (fp fp2 fp3 : Fingerprint)
    (hdig : ∀ s, (H.sha256hex s).length = 64)
    (hhex : ∀ s, (H.sha256hex s).data.all isHexChar = true)
    (h1 : generate_fingerprint H env c k m = .ok fp)
    (h2 : generate_fingerprint H { env with now := t } c k m2 = .ok fp2)
    (hk2 : k2 = "text" ∨ k2 = "image" ∨ k2 = "audio" ∨ k2 = "code")
    (hkk : k ≠ k2)
    (h3 : generate_fingerprint H env3 c2 k2 m3 = .ok fp3) :
    fp.fingerprint_id = fp2.fingerprint_id ∧ fp.content_hash = fp2.content_hash ∧
    fp.fingerprint_id =
      "fp_" ++ k ++ "_" ++ String.mk ((H.sha256hex (k ++ ":" ++ c)).data.take 16) ∧
    (String.mk ((H.sha256hex (k ++ ":" ++ c)).data.take 16)).length = 16 ∧
    ((H.sha256hex (k ++ ":" ++ c)).data.take 16).all isHexChar = true ∧
    fp.fingerprint_id ≠ fp3.fingerprint_id := by
  obtain ⟨hid, hch⟩ := build_hash_invariant H env t c k m m2 fp fp2 h1 h2
  obtain ⟨-, hid1, hk1, -, -, -, -, -⟩ := build_ok_fields H env c k m fp h1
  obtain ⟨-, hid3, -, -, -, -, -, -⟩ := build_ok_fields H env3 c2 k2 m3 fp3 h3
  refine ⟨hid, hch, ?_, ?_, ?_, ?_⟩
  · rw [hid1]; rfl
  · have hlen : (H.sha256hex (k ++ ":" ++ c)).data.length = 64 := by
      have h64 := hdig (k ++ ":" ++ c)
      calc (H.sha256hex (k ++ ":" ++ c)).data.length
          = (H.sha256hex (k ++ ":" ++ c)).length := by
            cases H.sha256hex (k ++ ":" ++ c); rfl
      _ = 64 := h64
    show ((H.sha256hex (k ++ ":" ++ c)).data.take 16).length = 16
    rw [List.length_take, hlen]
    rfl
  · have hall := hhex (k ++ ":" ++ c)
    rw [List.all_eq_true] at hall ⊢
    exact fun ch hch2 => hall ch (List.take_subset _ _ hch2)
  · rw [hid1, hid3]
    exact mkFingerprintId_ne H c c2 k k2 hk1 hk2 hkk

/-- Witness for C1 at concrete inputs: text `"hello"` built twice versus an
image built from the same content string. -/
theorem C1_witness :
    fpTextA.fingerprint_id = fpTextA2.fingerprint_id ∧
    fpTextA.content_hash = fpTextA2.content_hash ∧
    fpTextA.fingerprint_id =
      "fp_" ++ "text" ++ "_" ++
        String.mk ((H0.sha256hex ("text" ++ ":" ++ "hello")).data.take 16) ∧
    (String.mk ((H0.sha256hex ("text" ++ ":" ++ "hello")).data.take 16)).length = 16 ∧
    ((H0.sha256hex ("text" ++ ":" ++ "hello")).data.take 16).all isHexChar = true ∧
    fpTextA.fingerprint_id ≠ fpImageA.fingerprint_id :=
  C1_id_deterministic_and_kind_separated H0 envErr envErr "t1" "hello" "text" "hello" "image"
    [] [("a", "b")] [] fpTextA fpTextA2 fpImageA
    (fun _ => rfl) (fun _ => rfl) rfl rfl (Or.inr (Or.inl rfl)) (by decide) rfl

/-- C2 (amended): for builder-produced fingerprints of different kinds the
scorer returns a value (never raises) and that value is 0 — except when the
first fingerprint is a degraded code fingerprint (failed parse, no hashes),
which scores 0.7 against any different-kind fingerprint because its absent
hashes compare equal (`None == None`) to the other bundle's absent hashes. -/
theorem C2_cross_kind_score
    (H : HashModel) (env1 env2 : Env) (c1 c2 k1 k2 : String)
    (m1 m2 : List (String × String)) (fp1 fp2 : Fingerprint)
    (h1 : generate_fingerprint H env1 c1 k1 m1 = .ok fp1)
    (h2 : generate_fingerprint H env2 c2 k2 m2 = .ok fp2)
    (hne : fp1.content_type ≠ fp2.content_type) :
    (¬(fp1.content_type = "code" ∧ fp1.ast_hash = none) →
      calculateSimilarity fp1 fp2 = 0) ∧
    ((fp1.content_type = "code" ∧ fp1.ast_hash = none) →
      calculateSimilarity fp1 fp2 = ((7 : ℝ) / 10)) := by
  obtain ⟨hct1, -, hk1, -, -, -, -, hCode1⟩ := build_ok_fields H env1 c1 k1 m1 fp1 h1
  obtain ⟨hct2, -, -, hTx2, hIm2, hAu2, hCo2, -⟩ := build_ok_fields H env2 c2 k2 m2 fp2 h2
  have hkk : k1 ≠ k2 := fun h => hne (by rw [hct1, hct2, h])
  rcases hk1 with rfl | rfl | rfl | rfl
  · obtain ⟨ho2, hl2⟩ := hTx2 (fun h => hkk h.symm)
    have hz : calculateSimilarity fp1 fp2 = 0 := by
      unfold calculateSimilarity textSimilarity
      rcases ho1 : fp1.openai_embedding with _ | e1 <;>
        rcases hl1 : fp1.local_embedding with _ | f1 <;>
          rw [hct1, ho2, hl2] <;> simp
    exact ⟨fun _ => hz, fun hc => absurd (hct1.symm.trans hc.1) (by decide)⟩
  · have h2f := hIm2 (fun h => hkk h.symm)
    have hz : calculateSimilarity fp1 fp2 = 0 := by
      unfold calculateSimilarity imageSimilarity
      rw [hct1, h2f]
      simp
    exact ⟨fun _ => hz, fun hc => absurd (hct1.symm.trans hc.1) (by decide)⟩
  · have h2f := hAu2 (fun h => hkk h.symm)
    have hz : calculateSimilarity fp1 fp2 = 0 := by
      unfold calculateSimilarity audioSimilarity
      rw [hct1, h2f]
      simp
    exact ⟨fun _ => hz, fun hc => absurd (hct1.symm.trans hc.1) (by decide)⟩
  · obtain ⟨ha2, ht2, hf2⟩ := hCo2 (fun h => hkk h.symm)
    rcases hCode1 rfl with ⟨ha1, ht1, hf1⟩ | ⟨ha1, ht1, hf1⟩
    · have hz : calculateSimilarity fp1 fp2 = ((7 : ℝ) / 10) := by
        unfold calculateSimilarity
        rw [hct1, if_neg (by decide), if_neg (by decide), if_neg (by decide), if_pos rfl]
        unfold codeSimilarity
        rw [ha1, ht1, hf1, ha2, ht2, hf2]
        norm_num
      exact ⟨fun hno => absurd ⟨hct1, ha1⟩ hno, fun _ => hz⟩
    · obtain ⟨a1, ha1e⟩ := Option.isSome_iff_exists.mp ha1
      obtain ⟨t1, ht1e⟩ := Option.isSome_iff_exists.mp ht1
      have hz : calculateSimilarity fp1 fp2 = 0 := by
        unfold calculateSimilarity
        rw [hct1, if_neg (by decide), if_neg (by decide), if_neg (by decide), if_pos rfl]
        unfold codeSimilarity
        rw [ha1e, ht1e, ha2, ht2, hf2]
        simp
      exact ⟨fun _ => hz, fun hc => absurd hc.2 (by rw [ha1e]; simp)⟩

/-- Witness for C2 at concrete inputs: a text fingerprint scored against a
degraded code fingerprint returns exactly 0. -/
theorem C2_witness : calculateSimilarity fpTextA fpCodeBad = 0 :=
  (C2_cross_kind_score H0 envErr envErr "hello" "if x:" "text" "code" [] [] fpTextA fpCodeBad
    rfl rfl (by decide)).1 (by decide)

/-- Counterexample to C2 as stated: a degraded code fingerprint (parse
failed) scored against a text fingerprint yields 0.7, not 0. -/
theorem C2_counterexample :
    generate_fingerprint H0 envErr "if x:" "code" [] = .ok fpCodeBad ∧
    generate_fingerprint H0 envErr "hello" "text" [] = .ok fpTextA ∧
    fpCodeBad.content_type ≠ fpTextA.content_type ∧
    calculateSimilarity fpCodeBad fpTextA = ((7 : ℝ) / 10) ∧
    ((7 : ℝ) / 10) ≠ 0 := by
  refine ⟨rfl, rfl, by decide, ?_, by norm_num⟩
  unfold calculateSimilarity
  rw [if_neg (by decide), if_neg (by decide), if_neg (by decide), if_pos (by decide)]
  unfold codeSimilarity
  rw [show fpCodeBad.ast_hash = none from rfl, show fpTextA.ast_hash = none from rfl,
    show fpCodeBad.token_hash = none from rfl, show fpTextA.token_hash = none from rfl,
    show fpCodeBad.functions = none from rfl, show fpTextA.functions = none from rfl]
  norm_num

/-- C3 (amended): for all bundle pairs, the image and code scores lie in
[0,1]; the cosine-based text and audio scores lie in [-1,1] and can be
negative (and are `nan` in the source when an embedding has zero norm). -/
theorem C3_scorer_ranges (fp1 fp2 : Fingerprint) :
    (0 ≤ imageSimilarity fp1 fp2 ∧ imageSimilarity fp1 fp2 ≤ 1) ∧
    (0 ≤ codeSimilarity fp1 fp2 ∧ codeSimilarity fp1 fp2 ≤ 1) ∧
    (-1 ≤ textSimilarity fp1 fp2 ∧ textSimilarity fp1 fp2 ≤ 1) ∧
    (-1 ≤ audioSimilarity fp1 fp2 ∧ audioSimilarity fp1 fp2 ≤ 1) :=
  ⟨imageSimilarity_bounds fp1 fp2, codeSimilarity_bounds fp1 fp2,
   textSimilarity_bounds fp1 fp2, audioSimilarity_bounds fp1 fp2⟩

/-- The concrete opposite-embedding text pair scores exactly −1. -/
theorem ctx_pair_score : textSimilarity ctxA ctxB = -1 := by
  have h : textSimilarity ctxA ctxB = cosineSim [1] [-1] := rfl
  rw [h]
  unfold cosineSim
  rw [show dotQ [1] [-1] = -1 from by norm_num [dotQ],
    show dotQ [(1 : ℚ)] [1] = 1 from by norm_num [dotQ],
    show dotQ [(-1 : ℚ)] [-1] = 1 from by norm_num [dotQ]]
  push_cast
  rw [Real.sqrt_one]
  norm_num

/-- Counterexample to C3 as stated: two same-kind text bundles with opposite
one-dimensional embeddings score −1, outside [0,1]. -/
theorem C3_counterexample :
    ctxA.content_type = "text" ∧ ctxB.content_type = "text" ∧
    textSimilarity ctxA ctxB = -1 ∧ ¬(0 ≤ textSimilarity ctxA ctxB) :=
  ⟨rfl, rfl, ctx_pair_score, by rw [ctx_pair_score]; norm_num⟩

/-- C4 (amended): a same-kind candidate whose bundle is missing the features
its kind's scorer requires is assigned score 0 — provided, for code kinds,
that the query itself carries its hash features, since against a degraded
code query the candidate's absent hashes compare equal (`None == None`) and
score 0.7 (see the counterexample) — hence any strictly positive threshold
excludes it; the match engine is a total function, so no candidate makes it
raise. -/
theorem C4_missing_features_excluded
    (q c : Fingerprint) (pool : List Fingerprint) (t : ℝ)
    (ht : 0 < t) (hq : queryKindFeatures q) (hkind : c.content_type = q.content_type)
    (hmiss : missingKindFeatures c) (hmem : c ∈ pool) :
    calculateSimilarity q c = 0 ∧
    (find_similar_content q pool t).filter (fun x => decide (x.1 = c)) = [] := by
  have hz : calculateSimilarity q c = 0 := by
    unfold missingKindFeatures at hmiss
    rw [hkind] at hmiss
    unfold calculateSimilarity
    by_cases h1 : q.content_type = "text"
    · rw [if_pos h1]
      rw [h1, if_pos rfl] at hmiss
      obtain ⟨ho, hl⟩ := hmiss
      unfold textSimilarity
      rw [ho, hl]
      rcases q.openai_embedding with _ | e1 <;> rcases q.local_embedding with _ | f1 <;> simp
    · by_cases h2 : q.content_type = "image"
      · rw [if_neg h1, if_pos h2]
        rw [h2, if_neg (by decide), if_pos rfl] at hmiss
        unfold imageSimilarity
        rw [if_pos (Or.inr hmiss)]
        norm_num
      · by_cases h3 : q.content_type = "audio"
        · rw [if_neg h1, if_neg h2, if_pos h3]
          rw [h3, if_neg (by decide), if_neg (by decide), if_pos rfl] at hmiss
          unfold audioSimilarity
          rw [if_pos (Or.inr hmiss)]
        · by_cases h4 : q.content_type = "code"
          · rw [if_neg h1, if_neg h2, if_neg h3, if_pos h4]
            rw [h4, if_neg (by decide), if_neg (by decide), if_neg (by decide),
              if_pos rfl] at hmiss
            obtain ⟨ha, ht2, hf⟩ := hmiss
            obtain ⟨qa, qt⟩ := hq h4
            obtain ⟨av, hav⟩ := Option.isSome_iff_exists.mp qa
            obtain ⟨tv, htv⟩ := Option.isSome_iff_exists.mp qt
            unfold codeSimilarity
            rw [hav, htv, ha, ht2, hf]
            simp
          · rw [if_neg h1, if_neg h2, if_neg h3, if_neg h4]
  refine ⟨hz, ?_⟩
  rw [List.filter_eq_nil_iff]
  rintro ⟨d, s⟩ hx
  obtain ⟨hd, hdk, hs, hts⟩ := (mem_find_similar q pool t d s).mp hx
  simp only [decide_eq_true_eq]
  intro hdc
  subst hdc
  rw [hs, hz] at hts
  exact absurd hts (not_le.mpr ht)

/-- Witness for C4: a featureless code candidate against a well-featured
code query, threshold 0.5. -/
theorem C4_witness :
    calculateSimilarity cq4 cc4 = 0 ∧
    (find_similar_content cq4 [cc4] (1 / 2)).filter (fun x => decide (x.1 = cc4)) = [] :=
  C4_missing_features_excluded cq4 cc4 [cc4] (1 / 2) (by norm_num)
    (fun _ => ⟨rfl, rfl⟩) rfl
    (by unfold missingKindFeatures; simp [cc4])
    (List.mem_singleton.mpr rfl)

/-- Counterexample to C4 as stated: against a degraded code query (failed
parse, hashes absent — itself a first-class builder output), a featureless
same-kind code candidate scores 0.7 via `None == None` on both hash fields
and is retained at threshold 0.5 rather than excluded. -/
theorem C4_counterexample :
    generate_fingerprint H0 envErr "if x:" "code" [] = .ok fpCodeBad ∧
    missingKindFeatures cc4 ∧
    cc4.content_type = fpCodeBad.content_type ∧
    calculateSimilarity fpCodeBad cc4 = ((7 : ℝ) / 10) ∧
    find_similar_content fpCodeBad [cc4] (1 / 2) = [(cc4, (7 : ℝ) / 10)] := by
  have hsim : calculateSimilarity fpCodeBad cc4 = ((7 : ℝ) / 10) := by
    unfold calculateSimilarity
    rw [if_neg (by decide), if_neg (by decide), if_neg (by decide), if_pos (by decide)]
    unfold codeSimilarity
    rw [show fpCodeBad.ast_hash = none from rfl, show cc4.ast_hash = none from rfl,
      show fpCodeBad.token_hash = none from rfl, show cc4.token_hash = none from rfl,
      show fpCodeBad.functions = none from rfl, show cc4.functions = none from rfl]
    norm_num
  refine ⟨rfl, by unfold missingKindFeatures; simp [cc4], rfl, hsim, ?_⟩
  unfold find_similar_content
  have hk : keptMatches fpCodeBad [cc4] (1 / 2) = [(cc4, (7 : ℝ) / 10)] := by
    unfold keptMatches
    rw [List.filter_cons, if_pos (by decide), List.filter_nil, List.map_cons, List.map_nil,
      List.filter_cons, List.filter_nil]
    norm_num [hsim]
  rw [hk]
  rfl

theorem zipWith_bne_self_count (b : List Bool) :
    (List.zipWith (fun x y => x != y) b b).count true = 0 := by
  induction b with
  | nil => rfl
  | cons x b ih => simp [List.zipWith, ih, List.count_replicate]

/-- A valid hash compared against itself has Hamming distance 0, hence
similarity exactly 1. -/
theorem imagePairSim_self (h : String) (hv : validHashStr h = true) :
    imagePairSim h h = some 1 := by
  unfold imagePairSim
  rw [if_pos (by rw [hv]; simp)]
  have hb : hammingDist h h = 0 := by
    unfold hammingDist
    cases hbits : hexBits h with
    | none => rfl
    | some b => exact zipWith_bne_self_count b
  rw [hb]
  norm_num

theorem imagePairs_self_eq (fp : Fingerprint) : ∀ p ∈ imagePairs fp fp, p.1 = p.2 := by
  intro p hp
  unfold imagePairs at hp
  rw [List.mem_filterMap] at hp
  obtain ⟨t, -, hf⟩ := hp
  cases hl : List.lookup t (fp.perceptual_hashes.getD []) with
  | none => rw [hl] at hf; cases hf
  | some h => rw [hl] at hf; cases hf; rfl

theorem mapMO_all_one (pairs : List (String × String))
    (h : ∀ p ∈ pairs, imagePairSim p.1 p.2 = some 1) :
    mapMO (fun p => imagePairSim p.1 p.2) pairs = some (pairs.map fun _ => (1 : ℚ)) := by
  induction pairs with
  | nil => rfl
  | cons p ps ih =>
    simp [mapMO, h p (List.mem_cons_self _ _),
      ih fun x hx => h x (List.mem_cons_of_mem _ hx)]

theorem foldl_max_const (l : List ℚ) : ∀ a, (∀ x ∈ l, x ≤ a) → l.foldl max a = a := by
  induction l with
  | nil => intro a _; rfl
  | cons x l ih =>
    intro a h
    simp only [List.foldl_cons]
    rw [max_eq_left (h x (List.mem_cons_self _ _))]
    exact ih a fun y hy => h y (List.mem_cons_of_mem _ hy)

theorem foldl_max_map_one {α : Type} (l : List α) (hne : l ≠ []) :
    (l.map fun _ => (1 : ℚ)).foldl max 0 = 1 := by
  cases l with
  | nil => exact absurd rfl hne
  | cons x l =>
    simp only [List.map_cons, List.foldl_cons]
    rw [show max (0 : ℚ) 1 = 1 from by norm_num]
    exact foldl_max_const _ _ (by simp)

/-- C5 (amended): self-similarity is exactly 1 for a text bundle whose
compared embedding (primary if present, else local) has nonzero self-dot, an
image bundle with at least one valid perceptual hash, an audio bundle with a
nonempty MFCC vector of nonzero self-dot, and a code bundle with a nonempty
function-name set.  (A code bundle with an empty function set self-scores
0.7, and bundles missing these features self-score 0.) -/
theorem C5_self_similarity (fp : Fingerprint) :
    (∀ v, fp.content_type = "text" → fp.openai_embedding = some v → dotQ v v ≠ 0 →
      calculateSimilarity fp fp = 1) ∧
    (∀ v, fp.content_type = "text" → fp.openai_embedding = none →
      fp.local_embedding = some v → dotQ v v ≠ 0 → calculateSimilarity fp fp = 1) ∧
    (fp.content_type = "image" → imagePairs fp fp ≠ [] →
      (∀ p ∈ imagePairs fp fp, validHashStr p.1 = true) →
      fp.perceptual_hashes.getD [] ≠ [] → calculateSimilarity fp fp = 1) ∧
    (∀ v, fp.content_type = "audio" → fp.mfcc_features = some v → v ≠ [] →
      dotQ v v ≠ 0 → calculateSimilarity fp fp = 1) ∧
    (fp.content_type = "code" → fp.functions.getD [] ≠ [] →
      calculateSimilarity fp fp = 1) := by
  refine ⟨?_, ?_, ?_, ?_, ?_⟩
  · intro v hct ho hdot
    unfold calculateSimilarity
    rw [hct, if_pos rfl]
    unfold textSimilarity
    rw [ho]
    simp [cosineSim_self v hdot]
  · intro v hct ho hl hdot
    unfold calculateSimilarity
    rw [hct, if_pos rfl]
    unfold textSimilarity
    rw [ho, hl]
    simp [cosineSim_self v hdot]
  · intro hct hne hval hgd
    unfold calculateSimilarity
    rw [hct, if_neg (by decide), if_pos rfl]
    have h1 : imageSimilarity fp fp = 1 := by
      unfold imageSimilarity
      rw [if_neg (by simp [hgd])]
      have hone : ∀ p ∈ imagePairs fp fp, imagePairSim p.1 p.2 = some 1 := by
        intro p hp
        have hpe := imagePairs_self_eq fp p hp
        rw [← hpe]
        exact imagePairSim_self p.1 (hval p hp)
      rw [mapMO_all_one (imagePairs fp fp) hone]
      exact foldl_max_map_one _ hne
    rw [h1]
    norm_num
  · intro v hct hm hvne hdot
    unfold calculateSimilarity
    rw [hct, if_neg (by decide), if_neg (by decide), if_pos rfl]
    unfold audioSimilarity
    rw [hm]
    simp only [Option.getD_some]
    rw [if_neg (by simp [hvne])]
    simp [cosineSim_self v hdot]
  · intro hct hfne
    unfold calculateSimilarity
    rw [hct, if_neg (by decide), if_neg (by decide), if_neg (by decide), if_pos rfl]
    have h1 : codeSimilarity fp fp = 1 := by
      unfold codeSimilarity
      have hpos : 0 < (fp.functions.getD []).toFinset.card := by
        rw [Finset.card_pos]
        rcases hl : fp.functions.getD [] with _ | ⟨x, xs⟩
        · exact absurd hl hfne
        · exact ⟨x, by simp⟩
      simp only [eq_self_iff_true, if_true, Finset.inter_self, Finset.union_self]
      rw [max_eq_left hpos, div_self (by exact_mod_cast Nat.pos_iff_ne_zero.mp hpos)]
      norm_num
    rw [h1]
    norm_num

/-- Witness for C5 at one concrete bundle per kind (plus the local-embedding
fallback case). -/
theorem C5_witness :
    calculateSimilarity cSelfText cSelfText = 1 ∧
    calculateSimilarity cSelfLocal cSelfLocal = 1 ∧
    calculateSimilarity cSelfImage cSelfImage = 1 ∧
    calculateSimilarity cSelfAudio cSelfAudio = 1 ∧
    calculateSimilarity cSelfCode cSelfCode = 1 :=
  ⟨(C5_self_similarity cSelfText).1 [2, 1] rfl rfl (by norm_num [dotQ]),
   (C5_self_similarity cSelfLocal).2.1 [3] rfl rfl rfl (by norm_num [dotQ]),
   (C5_self_similarity cSelfImage).2.2.1 rfl (by decide) (by decide) (by decide),
   (C5_self_similarity cSelfAudio).2.2.2.1 [1, 2] rfl rfl (by decide) (by norm_num [dotQ]),
   (C5_self_similarity cSelfCode).2.2.2.2 rfl (by decide)⟩

/-- Counterexample to C5 as stated: a code bundle whose function set is
empty self-scores 0.7, not ≈ 1. -/
theorem C5_counterexample :
    calculateSimilarity cSelfCodeEmpty cSelfCodeEmpty = ((7 : ℝ) / 10) ∧
    calculateSimilarity cSelfCodeEmpty cSelfCodeEmpty < 3 / 4 := by
  have h : calculateSimilarity cSelfCodeEmpty cSelfCodeEmpty = ((7 : ℝ) / 10) := by
    unfold calculateSimilarity
    rw [if_neg (by decide), if_neg (by decide), if_neg (by decide), if_pos (by decide)]
    unfold codeSimilarity
    rw [if_pos rfl, if_pos rfl]
    norm_num [show cSelfCodeEmpty.functions.getD [] = [] from rfl]
  exact ⟨h, by rw [h]; norm_num⟩

/-- C6: the match list is sorted non-increasingly by score; filtering it by
any exact score value yields the filtered pre-sort candidate list (the
stable-sort guarantee: equal scores keep their pool order); and a pair
belongs to the result exactly when its fingerprint is a same-kind pool
member paired with its score, with score at least the threshold (inclusive)
— in particular cross-kind candidates are silently skipped and the engine is
a total function. -/
theorem C6_find_matches_sorted_stable_threshold
    (q : Fingerprint) (pool : List Fingerprint) (t : ℝ) :
    List.Sorted scoreGE (find_similar_content q pool t) ∧
    (∀ s : ℝ, (find_similar_content q pool t).filter (fun x => decide (x.2 = s)) =
      (keptMatches q pool t).filter (fun x => decide (x.2 = s))) ∧
    (∀ c d, (c, d) ∈ find_similar_content q pool t ↔
      c ∈ pool ∧ c.content_type = q.content_type ∧ d = calculateSimilarity q c ∧ t ≤ d) :=
  ⟨List.sorted_insertionSort scoreGE _,
   fun s => filter_score_insertionSort s _,
   fun c d => mem_find_similar q pool t c d⟩

/-- Bundles that store no vectors at all trivially satisfy `vecsOK`. -/
theorem vecsOK_of_none (fp : Fingerprint) (h1 : fp.openai_embedding = none)
    (h2 : fp.local_embedding = none) (h3 : fp.mfcc_features = none) : vecsOK fp := by
  refine ⟨?_, ?_, ?_⟩ <;> intro v hv
  · rw [h1] at hv; cases hv
  · rw [h2] at hv; cases hv
  · rw [h3] at hv; cases hv

/-- C7 (amended): a threshold above 1 yields the empty list (every score is
at most 1); a threshold of −1 or below yields every same-kind candidate
(every score is at least −1), stated for bundles whose stored vectors have
nonzero self-dot so that the exact model coincides with the source's float
arithmetic (a zero-norm embedding scores `nan` in the source, which every
threshold comparison excludes).  The claim's "threshold ≤ 0 returns every
same-kind candidate" is false: cosine scores can be negative (see the
counterexample). -/
theorem C7_threshold_extremes (q : Fingerprint) (pool : List Fingerprint) (t : ℝ) :
    (1 < t → find_similar_content q pool t = []) ∧
    (t ≤ -1 → vecsOK q → (∀ c ∈ pool, vecsOK c) →
      ((find_similar_content q pool t).map Prod.fst).Perm
        (pool.filter fun d => d.content_type == q.content_type)) := by
  constructor
  · intro ht
    unfold find_similar_content
    have hk : keptMatches q pool t = [] := by
      unfold keptMatches
      rw [List.filter_eq_nil_iff]
      rintro x hx
      rw [List.mem_map] at hx
      obtain ⟨e, he, rfl⟩ := hx
      simp only [decide_eq_true_eq]
      intro hts
      exact absurd (le_trans hts (calculateSimilarity_le_one q e)) (not_le.mpr ht)
    rw [hk]
    rfl
  · intro ht hq hpool
    have hall : keptMatches q pool t =
        (pool.filter fun d => d.content_type == q.content_type).map
          fun d => (d, calculateSimilarity q d) := by
      unfold keptMatches
      rw [List.filter_eq_self]
      intro x hx
      rw [List.mem_map] at hx
      obtain ⟨e, he, rfl⟩ := hx
      simp only [decide_eq_true_eq]
      exact le_trans ht (neg_one_le_calculateSimilarity q e)
    unfold find_similar_content
    rw [hall]
    have hperm := (List.perm_insertionSort scoreGE
      ((pool.filter fun d => d.content_type == q.content_type).map
        fun d => (d, calculateSimilarity q d))).map Prod.fst
    refine hperm.trans ?_
    rw [List.map_map, show (Prod.fst ∘ fun d => (d, calculateSimilarity q d)) =
      (id : Fingerprint → Fingerprint) from rfl, List.map_id]

/-- Witness for C7: a one-candidate code pool, thresholds 2 and −1. -/
theorem C7_witness :
    find_similar_content cq7 [cc7] 2 = [] ∧
    ((find_similar_content cq7 [cc7] (-1)).map Prod.fst).Perm
      ([cc7].filter fun d => d.content_type == cq7.content_type) :=
  ⟨(C7_threshold_extremes cq7 [cc7] 2).1 (by norm_num),
   (C7_threshold_extremes cq7 [cc7] (-1)).2 (by norm_num)
     (vecsOK_of_none cq7 rfl rfl rfl)
     (by
       intro c hc
       rw [List.mem_singleton] at hc
       subst hc
       exact vecsOK_of_none cc7 rfl rfl rfl)⟩

/-- Counterexample to C7 as stated: with threshold 0 (which is ≤ 0), a
same-kind text candidate whose embedding points opposite the query scores
−1 < 0 and is excluded, so not every same-kind candidate is returned. -/
theorem C7_counterexample :
    ctxB.content_type = ctxA.content_type ∧
    find_similar_content ctxA [ctxB] 0 = [] := by
  refine ⟨rfl, ?_⟩
  have hsim : calculateSimilarity ctxA ctxB = -1 := by
    unfold calculateSimilarity
    rw [show ctxA.content_type = "text" from rfl, if_pos rfl]
    exact ctx_pair_score
  unfold find_similar_content
  have hk : keptMatches ctxA [ctxB] 0 = [] := by
    unfold keptMatches
    rw [List.filter_cons, if_pos (by decide), List.filter_nil, List.map_cons, List.map_nil,
      List.filter_cons, List.filter_nil]
    norm_num [hsim]
  rw [hk]
  rfl

/-- C8 (amended): the only builder condition that propagates as a fatal
error is an unsupported content kind; every supported kind returns a
fingerprint.  In particular an audio decode failure is absorbed: the builder
returns a fingerprint whose bundle holds only the error indicator (no
feature fields are populated), rather than raising. -/
theorem C8_error_propagation (H : HashModel) (env : Env) (c k : String)
    (m : List (String × String)) :
    (k ≠ "text" → k ≠ "image" → k ≠ "audio" → k ≠ "code" →
      generate_fingerprint H env c k m = .error ("Unsupported content type: " ++ k)) ∧
    (k = "text" ∨ k = "image" ∨ k = "audio" ∨ k = "code" →
      isOkB (generate_fingerprint H env c k m) = true) ∧
    (∀ e, env.loadAudio c = .error e →
      generate_fingerprint H env c "audio" m = .ok
        { fingerprint_id := mkFingerprintId H c "audio", content_type := "audio"
          timestamp := env.now, metadata := m
          error := some ("Audio fingerprinting failed: " ++ e) }) := by
  refine ⟨?_, ?_, ?_⟩
  · intro h1 h2 h3 h4
    unfold generate_fingerprint
    rw [if_neg h1, if_neg h2, if_neg h3, if_neg h4]
  · intro hk
    unfold generate_fingerprint
    rcases hk with rfl | rfl | rfl | rfl <;> simp [isOkB]
  · intro e he
    unfold generate_fingerprint
    rw [if_neg (by decide), if_neg (by decide), if_pos rfl]
    unfold fingerprintAudio
    rw [he]

/-- Witness for C8: an unsupported kind raises, text succeeds, and a failing
audio decode is absorbed into an error-only bundle. -/
theorem C8_witness :
    generate_fingerprint H0 envErr "x" "video" [] =
      .error ("Unsupported content type: " ++ "video") ∧
    isOkB (generate_fingerprint H0 envErr "x" "text" []) = true ∧
    generate_fingerprint H0 envErr "clip.mp3" "audio" [] = .ok
      { fingerprint_id := mkFingerprintId H0 "clip.mp3" "audio", content_type := "audio"
        timestamp := envErr.now, metadata := []
        error := some ("Audio fingerprinting failed: " ++ "decode failure") } :=
  ⟨(C8_error_propagation H0 envErr "x" "video" []).1
      (by decide) (by decide) (by decide) (by decide),
   (C8_error_propagation H0 envErr "x" "text" []).2.1 (Or.inl rfl),
   (C8_error_propagation H0 envErr "clip.mp3" "audio" []).2.2 "decode failure" rfl⟩

/-- Counterexample to C8 as stated: the audio decode fails, yet the builder
returns `.ok` — the failure does not propagate to the caller. -/
theorem C8_counterexample :
    envErr.loadAudio "clip.mp3" = .error "decode failure" ∧
    isOkB (generate_fingerprint H0 envErr "clip.mp3" "audio" []) = true :=
  ⟨rfl, rfl⟩

/-- C9: the import-extraction bug, evaluated at the failing input
`"import os"`.  The input parses successfully, yet the extractor returns the
parse-error fallback bundle: the comprehension `[node.module for node in
ast.walk(tree) if isinstance(node, ast.Import)]` raises `AttributeError`
(an `ast.Import` node has no `.module` attribute) and the `except` turns
that into the fallback.  By contrast, a successfully parsed input without a
plain `import` statement does produce the full bundle — with `imports`
always the empty list. -/
theorem C9_import_attribute_bug :
    envImport.parseCode "import os" = .ok (PyAst.module [PyAst.importStmt ["os"]]) ∧
    (okFP (generate_fingerprint H0 envImport "import os" "code" [])).error =
      some ("AST parsing failed: " ++
        "\x27Import\x27 object has no attribute \x27module\x27") ∧
    (okFP (generate_fingerprint H0 envImport "import os" "code" [])).ast_hash = none ∧
    (okFP (generate_fingerprint H0 envImport "import os" "code" [])).token_hash = none ∧
    (okFP (generate_fingerprint H0 envImport "import os" "code" [])).functions = none ∧
    (okFP (generate_fingerprint H0 envImport "import os" "code" [])).content_hash =
      some (H0.md5hex "import os") ∧
    isOkB (generate_fingerprint H0 envImport "import os" "code" []) = true ∧
    (okFP (generate_fingerprint H0 envParse "def f(): pass" "code" [])).ast_hash =
      some (H0.md5hex (astDump (PyAst.module [PyAst.functionDef "f" []]))) ∧
    (okFP (generate_fingerprint H0 envParse "def f(): pass" "code" [])).error = none ∧
    (okFP (generate_fingerprint H0 envParse "def f(): pass" "code" [])).imports = some [] :=
  ⟨rfl, rfl, rfl, rfl, rfl, rfl, rfl, rfl, rfl, rfl⟩

/-- C10 (amended): the code score is 0.4·[structural hashes equal] +
0.3·[token hashes equal] + 0.3·(size of the intersection of the *function*
name sets over the union size clamped to at least 1); the class name sets
play no role in the score. -/
theorem C10_code_similarity_formula (fp1 fp2 : Fingerprint) :
    codeSimilarity fp1 fp2 =
      0.4 * (if fp1.ast_hash = fp2.ast_hash then 1 else 0) +
      0.3 * (if fp1.token_hash = fp2.token_hash then 1 else 0) +
      0.3 * ((((fp1.functions.getD []).toFinset ∩ (fp2.functions.getD []).toFinset).card : ℚ) /
        ((max ((fp1.functions.getD []).toFinset ∪ (fp2.functions.getD []).toFinset).card 1 : ℕ) : ℚ)) ∧
    ∀ cl1 cl2 : Option (List String),
      codeSimilarity { fp1 with classes := cl1 } { fp2 with classes := cl2 } =
        codeSimilarity fp1 fp2 :=
  ⟨rfl, fun _ _ => rfl⟩

/-- Counterexample to C10 as stated: two code bundles with equal hashes,
equal function sets and disjoint class sets.  The source scores 1.0; the
claim's formula over the function∪class sets gives 0.8. -/
theorem C10_counterexample :
    codeSimilarity csA csB = 1 ∧ specCodeSimilarity csA csB = 4 / 5 ∧
    codeSimilarity csA csB ≠ specCodeSimilarity csA csB := by
  have h1 : codeSimilarity csA csB = 1 := by
    unfold codeSimilarity
    rw [if_pos (show csA.ast_hash = csB.ast_hash from rfl),
      if_pos (show csA.token_hash = csB.token_hash from rfl),
      show ((csA.functions.getD []).toFinset ∩ (csB.functions.getD []).toFinset).card = 1
        from by decide,
      show ((csA.functions.getD []).toFinset ∪ (csB.functions.getD []).toFinset).card = 1
        from by decide]
    norm_num
  have h2 : specCodeSimilarity csA csB = 4 / 5 := by
    unfold specCodeSimilarity
    rw [if_pos (show csA.ast_hash = csB.ast_hash from rfl),
      if_pos (show csA.token_hash = csB.token_hash from rfl),
      show (((csA.functions.getD []) ++ (csA.classes.getD [])).toFinset ∩
          ((csB.functions.getD []) ++ (csB.classes.getD [])).toFinset).card = 1 from by decide,
      show (((csA.functions.getD []) ++ (csA.classes.getD [])).toFinset ∪
          ((csB.functions.getD []) ++ (csB.classes.getD [])).toFinset).card = 3 from by decide]
    norm_num
  refine ⟨h1, h2, ?_⟩
  rw [h1, h2]
  norm_num

end Gnan
